import Mathlib

/-!
Shallow embedding of the session-streaming client of the VibeAround web
dashboard, translated from the repository's React sources:

* `TerminalView.tsx` — the terminal channel's message handler
  (`ws.onmessage`), the one-time reset on the first history dump, the
  session-state control frames, and the resize frames
  (`sendResize` / `fitAndSendResize`);
* the chat view (`ChatView`) — `buildPromptWithContext`,
  `appendToAssistant`, the inbound chat-frame reducer inside
  `ws.onmessage`, and `sendMessage`;
* the session registry in `App.tsx` — `closeSession` and
  `setSessionState`.

Stateful handlers are embedded as explicit state-passing functions; the
emulator surface is modelled as the ordered log of reset/write events
applied to it, and outbound socket traffic as the list of emitted frames.
-/

namespace VibeAround

/-- Tool kind, from `lib/terminal-types.ts` (`ToolType`). -/
inductive ToolType
  | generic
  | claude
  | gemini
  | codex
deriving DecidableEq, Repr

/-- Session status, from `lib/terminal-types.ts` (`TerminalStatus`). -/
inductive TerminalStatus
  | running
  | idle
  | stopped
  | error
deriving DecidableEq, Repr

/-- The `type` field of a `SessionStateMessage` (`"running" | "exited"`). -/
inductive MsgType
  | running
  | exited
deriving DecidableEq, Repr

/-- Inbound terminal control frame, from `TerminalView.tsx`
(`interface SessionStateMessage`): `type`, `tool`, optional `exit_code`. -/
structure SessionStateMessage where
  type : MsgType
  tool : ToolType
  exit_code : Option Int
deriving DecidableEq, Repr

/-- From `TerminalView.tsx`: `mapTool` is the identity on tool kinds. -/
def mapTool (t : ToolType) : ToolType := t

/-- Status computed by the `ws.onmessage` handler in `TerminalView.tsx`:
`msg.type === "running" ? "running" : msg.exit_code === 0 ? "stopped" : "error"`. -/
def sessionStatusOf (msg : SessionStateMessage) : TerminalStatus :=
  match msg.type with
  | .running => .running
  | .exited => if msg.exit_code = some 0 then .stopped else .error

/-- A classified inbound frame on the terminal channel. `binary` stands for
the `ArrayBuffer`/`Blob` branches of `ws.onmessage`; `control` for a string
that `JSON.parse`s to a `SessionStateMessage` with `type` `"running"` or
`"exited"`; `rawText` for every other string (parse failure or an
unrecognized shape). -/
inductive TermFrame
  | binary (bytes : List Nat)
  | control (msg : SessionStateMessage)
  | rawText (s : String)
deriving DecidableEq, Repr

/-- One event applied to the emulator surface: `term.reset()`,
`term.write(bytes)` or `term.write(string)`. -/
inductive TermEvent
  | reset
  | writeBytes (bytes : List Nat)
  | writeText (s : String)
deriving DecidableEq, Repr

/-- State owned by one `TerminalView` instance: the `dumpReceived` flag of
the `ws.onmessage` closure, the ordered log of events applied to the
emulator surface, and the session-state reports forwarded upward through
`onSessionState`. -/
structure TermState where
  dumpReceived : Bool
  surface : List TermEvent
  reports : List (ToolType × TerminalStatus)
deriving DecidableEq, Repr

/-- The `ws.onmessage` handler of `TerminalView.tsx`, one inbound frame at a
time. Binary data: reset once if the dump has not been received, then write.
A recognized session-state message: report `(mapTool msg.tool, status)` and
return before the reset logic. Any other string: same reset-once-then-write
path as binary data. -/
def onMessage (st : TermState) (f : TermFrame) : TermState :=
  match f with
  | .binary bytes =>
    if st.dumpReceived then
      { st with surface := st.surface ++ [.writeBytes bytes] }
    else
      { st with dumpReceived := true,
                surface := st.surface ++ [.reset, .writeBytes bytes] }
  | .control msg =>
    { st with reports := st.reports ++ [(mapTool msg.tool, sessionStatusOf msg)] }
  | .rawText s =>
    if st.dumpReceived then
      { st with surface := st.surface ++ [.writeText s] }
    else
      { st with dumpReceived := true,
                surface := st.surface ++ [.reset, .writeText s] }

/-- Fold `onMessage` over a sequence of inbound frames. -/
def processFrames (st : TermState) (fs : List TermFrame) : TermState :=
  fs.foldl onMessage st

/-- Does this frame take the dump/write path of `ws.onmessage` (binary data
or raw text), as opposed to the early-returning control path? -/
def isDump : TermFrame → Bool
  | .binary _ => true
  | .control _ => false
  | .rawText _ => true

/-- The surface write a dump-path frame produces. (On a `control` frame the
handler returns before writing; the value here is never used.) -/
def writeOf : TermFrame → TermEvent
  | .binary bytes => .writeBytes bytes
  | .control _ => .writeText ""
  | .rawText s => .writeText s

/-- Outbound resize control frame `{type: "resize", cols, rows}`. -/
structure ResizeFrame where
  cols : Int
  rows : Int
deriving DecidableEq, Repr

/-- The `sendResize` closure of `TerminalView.tsx`: after `fitAddon.fit()`,
if the socket is `OPEN`, send `{type: "resize", cols: term.cols - 1,
rows: term.rows}`; otherwise nothing is sent. `fittedCols`/`fittedRows`
are the character-cell fit the addon computed (`term.cols`/`term.rows`). -/
def sendResize (wsOpen : Bool) (fittedCols fittedRows : Int) : Option ResizeFrame :=
  if wsOpen then some { cols := fittedCols - 1, rows := fittedRows } else none

/-- The component-level `fitAndSendResize` of `TerminalView.tsx`: same
frame, also guarded on the terminal instance being present
(`ws?.readyState === WebSocket.OPEN && term`). -/
def fitAndSendResize (wsOpen termPresent : Bool) (fittedCols fittedRows : Int) :
    Option ResizeFrame :=
  if wsOpen && termPresent then
    some { cols := fittedCols - 1, rows := fittedRows }
  else none

/-- Role of a conversation turn (`"user" | "assistant"`). -/
inductive Role
  | user
  | assistant
deriving DecidableEq, Repr

/-- A chat turn, from the richer `ChatView`:
`type ChatMessage = { role; content; progress? }`. -/
structure ChatMessage where
  role : Role
  content : String
  progress : Option String
deriving DecidableEq, Repr

/-- State of one `ChatView` instance that the inbound reducer touches: the
`messages` list and the `streaming` flag. -/
structure ChatState where
  messages : List ChatMessage
  streaming : Bool
deriving DecidableEq, Repr

/-- A classified inbound chat frame. The JSON shapes the handler
discriminates, in its check order: `{done: true}`, `{error: string}`,
`{progress: string}`, `{text: string}`, any other parseable object
(`jobInfo`), and a non-JSON string (`raw`). -/
inductive ChatFrame
  | done
  | error (msg : String)
  | progress (p : String)
  | text (t : String)
  | jobInfo
  | raw (s : String)
deriving DecidableEq, Repr

/-- JavaScript truthiness of the optional `progress` field: `undefined` and
the empty string are falsy. -/
def progressTruthy : Option String → Bool
  | none => false
  | some p => p ≠ ""

/-- The `appendToAssistant` helper of `ChatView`: no-op on empty text
(`if (!text) return`); start an assistant turn when the list is empty or
the last turn is not an assistant turn; otherwise append to the last
assistant turn's content and clear its progress label. -/
def appendToAssistant (text : String) (msgs : List ChatMessage) : List ChatMessage :=
  if text = "" then msgs
  else
    match msgs.getLast? with
    | none => [{ role := .assistant, content := text, progress := none }]
    | some last =>
      if last.role = .assistant then
        msgs.dropLast ++
          [{ last with content := last.content ++ text, progress := none }]
      else
        msgs ++ [{ role := .assistant, content := text, progress := none }]

/-- The inbound reducer of the chat `ws.onmessage`, one frame at a time,
translated branch by branch from `ChatView`. -/
def stepChat (s : ChatState) (f : ChatFrame) : ChatState :=
  match f with
  | .done =>
    let msgs :=
      match s.messages.getLast? with
      | some last =>
        if last.role = .assistant ∧ progressTruthy last.progress then
          s.messages.dropLast ++ [{ last with progress := none }]
        else s.messages
      | none => s.messages
    { messages := msgs, streaming := false }
  | .error e =>
    let msgs :=
      match s.messages.getLast? with
      | some last =>
        if last.role = .assistant then
          s.messages.dropLast ++
            [{ last with
                content := last.content ++
                  (if last.content = "" then "" else "\n\n") ++ "Error: " ++ e,
                progress := none }]
        else
          s.messages ++ [{ role := .assistant, content := "Error: " ++ e, progress := none }]
      | none =>
        s.messages ++ [{ role := .assistant, content := "Error: " ++ e, progress := none }]
    { messages := msgs, streaming := false }
  | .progress p =>
    match s.messages.getLast? with
    | some last =>
      if last.role = .assistant then
        { s with messages := s.messages.dropLast ++ [{ last with progress := some p }] }
      else s
    | none => s
  | .text t => { s with messages := appendToAssistant t s.messages }
  | .jobInfo => s
  | .raw str => { s with messages := appendToAssistant str s.messages }

/-- From `ChatView`: `const CONTEXT_MESSAGE_LIMIT = 20`. -/
def CONTEXT_MESSAGE_LIMIT : Nat := 20

/-- One rendered context line of `buildPromptWithContext`:
the role label followed by the turn's content. -/
def renderContextLine (m : ChatMessage) : String :=
  match m.role with
  | .user => "User: " ++ m.content
  | .assistant => "Assistant: " ++ m.content

/-- `buildPromptWithContext` from `ChatView`: with no prior turns return
the new message unmodified; otherwise render the last
`CONTEXT_MESSAGE_LIMIT` turns (`messages.slice(-CONTEXT_MESSAGE_LIMIT)`)
as labelled lines joined by blank lines, under a fixed header and followed
by the new message. -/
def buildPromptWithContext (messages : List ChatMessage) (newUserMessage : String) :
    String :=
  if messages.length = 0 then newUserMessage
  else
    let recent := messages.drop (messages.length - CONTEXT_MESSAGE_LIMIT)
    let lines := recent.map renderContextLine
    "Previous conversation:\n\n" ++ String.intercalate "\n\n" lines ++
      "\n\nUser: " ++ newUserMessage

/-- Model of JavaScript `String.prototype.trim` (the `input.trim()` call in
`sendMessage`): strip leading and trailing whitespace characters. -/
def jsTrim (s : String) : String :=
  String.mk (((s.data.dropWhile Char.isWhitespace).reverse.dropWhile Char.isWhitespace).reverse)

/-- Result of one `sendMessage` call: the message list afterwards, the
frames written to the socket, and the streaming flag afterwards. -/
structure SendResult where
  messages : List ChatMessage
  outbound : List String
  streaming : Bool
deriving DecidableEq, Repr

/-- `sendMessage` from `ChatView`: trim the input; return without any
effect when the trimmed text is empty or the socket is absent/not `OPEN`;
otherwise append a user turn with the trimmed text and an empty assistant
turn, mark streaming, and send `buildPromptWithContext(messages, text)`. -/
def sendMessage (wsOpen : Bool) (input : String) (s : ChatState) : SendResult :=
  let text := jsTrim input
  if text = "" ∨ wsOpen = false then
    { messages := s.messages, outbound := [], streaming := s.streaming }
  else
    { messages := s.messages ++
        [{ role := .user, content := text, progress := none },
         { role := .assistant, content := "", progress := none }],
      outbound := [buildPromptWithContext s.messages text],
      streaming := true }

/-- A terminal session record, from `lib/terminal-types.ts`
(`TerminalSession`); `createdAt` is optional there. -/
structure TerminalSession where
  id : String
  name : String
  group : String
  tool : ToolType
  status : TerminalStatus
  command : String
  cwd : String
  startedAt : Nat
  createdAt : Option Nat
deriving DecidableEq, Repr

/-- A group of sessions, from `lib/terminal-types.ts` (`TerminalGroup`). -/
structure TerminalGroup where
  id : String
  label : String
  color : String
  sessions : List TerminalSession
deriving DecidableEq, Repr

/-- Registry state held by `App.tsx`: the groups, the active tab and the
maximized session. -/
structure RegistryState where
  groups : List TerminalGroup
  activeTabId : Option String
  maximizedSession : Option String
deriving DecidableEq, Repr

/-- All sessions across groups, in order (`groups.flatMap(g => g.sessions)`). -/
def allSessions (s : RegistryState) : List TerminalSession :=
  s.groups.flatMap (·.sessions)

/-- `closeSession` from `App.tsx`, after a successful delete: filter the
session out of every group; if it was the active tab, fall back to the
first remaining session (or none); clear the maximized selection only if
it pointed at this session. -/
def closeSession (sessionId : String) (s : RegistryState) : RegistryState :=
  { groups := s.groups.map fun g =>
      { g with sessions := g.sessions.filter fun x => x.id ≠ sessionId },
    activeTabId :=
      if s.activeTabId ≠ some sessionId then s.activeTabId
      else
        (((allSessions s).filter fun x => x.id ≠ sessionId).head?).map (·.id),
    maximizedSession :=
      if s.maximizedSession = some sessionId then none else s.maximizedSession }

/-- The per-session update `setSessionState` applies to a matching id:
replace `tool` and `status`, keep everything else. -/
def updateSessionState (sessionId : String) (tool : ToolType)
    (status : TerminalStatus) (sess : TerminalSession) : TerminalSession :=
  if sess.id = sessionId then { sess with tool := tool, status := status } else sess

/-- `setSessionState` from `App.tsx`: map every group's sessions through
the per-session update; the active tab and maximized selection are not
touched. -/
def setSessionState (sessionId : String) (tool : ToolType)
    (status : TerminalStatus) (s : RegistryState) : RegistryState :=
  { s with groups := s.groups.map fun g =>
      { g with sessions := g.sessions.map (updateSessionState sessionId tool status) } }

theorem processFrames_nil (st : TermState) : processFrames st [] = st := rfl

theorem processFrames_cons (st : TermState) (f : TermFrame) (fs : List TermFrame) :
    processFrames st (f :: fs) = processFrames (onMessage st f) fs := rfl

/-- Once the dump flag is set, processing any further frames appends one
write per dump-path frame, in order, and never resets; the flag stays set. -/
theorem processFrames_of_dumpReceived (fs : List TermFrame) (st : TermState)
    (h : st.dumpReceived = true) :
    (processFrames st fs).surface = st.surface ++ (fs.filter isDump).map writeOf ∧
    (processFrames st fs).dumpReceived = true := by
  induction fs generalizing st with
  | nil => simp [processFrames_nil, h]
  | cons f fs ih =>
    rw [processFrames_cons]
    cases f with
    | binary bytes =>
      have h2 := ih { st with surface := st.surface ++ [.writeBytes bytes] } (by simpa using h)
      simpa [onMessage, h, isDump, writeOf] using h2
    | control msg =>
      have h2 := ih { st with reports := st.reports ++ [(mapTool msg.tool, sessionStatusOf msg)] }
        (by simpa using h)
      simpa [onMessage, h, isDump] using h2
    | rawText s =>
      have h2 := ih { st with surface := st.surface ++ [.writeText s] } (by simpa using h)
      simpa [onMessage, h, isDump, writeOf] using h2

/-- C1: starting with the dump not yet received, any inbound sequence that
contains at least one dump-path frame (binary, or raw text that triggers
the dump) produces on the emulator surface exactly one reset, placed
immediately before the write of the first such frame; every later
dump-path frame is appended as a plain write with no further reset. -/
theorem reset_exactly_once_before_first_dump (fs : List TermFrame) :
    ∀ st : TermState, st.dumpReceived = false → fs.filter isDump ≠ [] →
    (processFrames st fs).surface =
      st.surface ++ TermEvent.reset :: (fs.filter isDump).map writeOf ∧
    (processFrames st fs).dumpReceived = true := by
  induction fs with
  | nil =>
    intro st h0 hne
    simp [isDump] at hne
  | cons f fs ih =>
    intro st h0 hne
    rw [processFrames_cons]
    cases f with
    | binary bytes =>
      have h2 := processFrames_of_dumpReceived fs
        { st with dumpReceived := true,
                  surface := st.surface ++ [.reset, .writeBytes bytes] } (by rfl)
      simpa [onMessage, h0, isDump, writeOf] using h2
    | control msg =>
      have hne2 : fs.filter isDump ≠ [] := by simpa [isDump] using hne
      have h2 := ih { st with reports := st.reports ++ [(mapTool msg.tool, sessionStatusOf msg)] }
        (by simpa using h0) hne2
      simpa [onMessage, isDump] using h2
    | rawText s =>
      have h2 := processFrames_of_dumpReceived fs
        { st with dumpReceived := true,
                  surface := st.surface ++ [.reset, .writeText s] } (by rfl)
      simpa [onMessage, h0, isDump, writeOf] using h2

/-- Witness for C1: the spec's scenario — two binary chunks `[72,73]` and
`[33]` ("HI!") yield one reset followed by the two writes. -/
theorem reset_exactly_once_before_first_dump_witness :
    (processFrames ⟨false, [], []⟩
        [TermFrame.binary [72, 73], TermFrame.binary [33]]).surface =
      [TermEvent.reset, TermEvent.writeBytes [72, 73], TermEvent.writeBytes [33]] ∧
    (processFrames ⟨false, [], []⟩
        [TermFrame.binary [72, 73], TermFrame.binary [33]]).dumpReceived = true := by
  have h := reset_exactly_once_before_first_dump
    [TermFrame.binary [72, 73], TermFrame.binary [33]] ⟨false, [], []⟩ rfl (by decide)
  simpa [isDump, writeOf] using h

/-- C10: a recognized session-state control frame leaves the dump flag and
the emulator surface untouched (it only appends a report), so a binary
frame arriving right after it still performs the one-time reset. -/
theorem control_frame_returns_before_reset (st : TermState) (msg : SessionStateMessage) :
    (onMessage st (.control msg)).dumpReceived = st.dumpReceived ∧
    (onMessage st (.control msg)).surface = st.surface ∧
    (onMessage st (.control msg)).reports =
      st.reports ++ [(mapTool msg.tool, sessionStatusOf msg)] ∧
    (st.dumpReceived = false → ∀ bytes : List Nat,
      (onMessage (onMessage st (.control msg)) (.binary bytes)).surface =
        st.surface ++ [TermEvent.reset, TermEvent.writeBytes bytes] ∧
      (onMessage (onMessage st (.control msg)) (.binary bytes)).dumpReceived = true) := by
  refine ⟨rfl, rfl, rfl, fun h0 bytes => ?_⟩
  simp [onMessage, h0]

/-- Witness for C10 at a concrete state and control frame. -/
theorem control_frame_returns_before_reset_witness :
    (onMessage ⟨false, [], []⟩ (.control ⟨.running, .claude, none⟩)).dumpReceived = false ∧
    (onMessage ⟨false, [], []⟩ (.control ⟨.running, .claude, none⟩)).surface = [] ∧
    (onMessage (onMessage ⟨false, [], []⟩ (.control ⟨.running, .claude, none⟩))
        (.binary [72])).surface = [TermEvent.reset, TermEvent.writeBytes [72]] := by
  have h := control_frame_returns_before_reset ⟨false, [], []⟩ ⟨.running, .claude, none⟩
  exact ⟨h.1, h.2.1, (h.2.2.2 rfl [72]).1⟩

/-- C2: the status written to the registry for a control frame — `running`
maps to `running`; `exited` with exit code 0 maps to `stopped`; `exited`
with a nonzero or absent exit code maps to `error`; and the handler
reports exactly `(mapTool msg.tool, sessionStatusOf msg)`. -/
theorem session_status_mapping :
    (∀ (tool : ToolType) (code : Option Int),
      sessionStatusOf ⟨.running, tool, code⟩ = .running) ∧
    (∀ tool : ToolType, sessionStatusOf ⟨.exited, tool, some 0⟩ = .stopped) ∧
    (∀ (tool : ToolType) (c : Int), c ≠ 0 →
      sessionStatusOf ⟨.exited, tool, some c⟩ = .error) ∧
    (∀ tool : ToolType, sessionStatusOf ⟨.exited, tool, none⟩ = .error) ∧
    (∀ (st : TermState) (msg : SessionStateMessage),
      (onMessage st (.control msg)).reports =
        st.reports ++ [(mapTool msg.tool, sessionStatusOf msg)]) := by
  refine ⟨fun tool code => rfl, fun tool => rfl, fun tool c hc => ?_, fun tool => rfl,
    fun st msg => rfl⟩
  simp [sessionStatusOf, hc]

/-- Witness for C2 at exit code 1. -/
theorem session_status_mapping_witness :
    sessionStatusOf ⟨.exited, .generic, some 1⟩ = .error ∧
    sessionStatusOf ⟨.running, .generic, none⟩ = .running ∧
    sessionStatusOf ⟨.exited, .generic, some 0⟩ = .stopped := by
  exact ⟨session_status_mapping.2.2.1 .generic 1 (by decide),
    session_status_mapping.1 .generic none, session_status_mapping.2.1 .generic⟩

/-- C8: every emitted resize frame carries one column less than the fitted
column count and the unmodified fitted row count, and a frame is emitted
only when the channel is open (for `fitAndSendResize`, also only when the
terminal instance is present). -/
theorem resize_one_column_margin (cols rows : Int) :
    sendResize true cols rows = some ⟨cols - 1, rows⟩ ∧
    sendResize false cols rows = none ∧
    fitAndSendResize true true cols rows = some ⟨cols - 1, rows⟩ ∧
    (∀ t : Bool, fitAndSendResize false t cols rows = none) ∧
    (∀ b : Bool, fitAndSendResize b false cols rows = none) ∧
    (∀ (b : Bool) (f : ResizeFrame), sendResize b cols rows = some f →
      b = true ∧ f.cols = cols - 1 ∧ f.rows = rows) := by
  refine ⟨rfl, rfl, rfl, fun t => rfl, fun b => by cases b <;> rfl, fun b f h => ?_⟩
  cases b with
  | false => simp [sendResize] at h
  | true =>
    simp only [sendResize, if_pos] at h
    cases h
    exact ⟨rfl, rfl, rfl⟩

/-- Witness for C8 at an 81-column, 24-row fit. -/
theorem resize_one_column_margin_witness :
    sendResize true 81 24 = some ⟨80, 24⟩ ∧
    sendResize false 81 24 = none ∧
    (true = true ∧ (80 : Int) = 81 - 1 ∧ (24 : Int) = 24) := by
  have h := resize_one_column_margin 81 24
  exact ⟨h.1, h.2.1, h.2.2.2.2.2 true ⟨80, 24⟩ (by decide)⟩

/-- C3: composition of the outbound prompt. With prior turns the prompt is
the fixed header, the rendered lines of exactly the last
`min 20 (number of prior turns)` turns in original order (each line the
role label followed by the content), and then the new message; the window
really is a suffix of the prior turns. With zero prior turns the prompt —
and the payload `sendMessage` emits — is exactly the raw trimmed message. -/
theorem prompt_context_window :
    (∀ new : String, buildPromptWithContext [] new = new) ∧
    (∀ (msgs : List ChatMessage) (new : String), msgs ≠ [] →
      buildPromptWithContext msgs new =
        "Previous conversation:\n\n" ++
          String.intercalate "\n\n"
            ((msgs.drop (msgs.length - CONTEXT_MESSAGE_LIMIT)).map renderContextLine) ++
          "\n\nUser: " ++ new) ∧
    (∀ msgs : List ChatMessage,
      (msgs.drop (msgs.length - CONTEXT_MESSAGE_LIMIT)).length =
        min CONTEXT_MESSAGE_LIMIT msgs.length) ∧
    (∀ msgs : List ChatMessage, ∃ rest,
      msgs = rest ++ msgs.drop (msgs.length - CONTEXT_MESSAGE_LIMIT)) ∧
    (∀ m : ChatMessage, renderContextLine m =
      (if m.role = .user then "User: " else "Assistant: ") ++ m.content) ∧
    (∀ (wsOpen : Bool) (input : String) (s : ChatState), s.messages = [] →
      wsOpen = true → jsTrim input ≠ "" →
      (sendMessage wsOpen input s).outbound = [jsTrim input]) := by
  refine ⟨fun new => rfl, fun msgs new h => ?_, fun msgs => ?_, fun msgs => ?_,
    fun m => ?_, fun wsOpen input s hm hopen htrim => ?_⟩
  · rw [buildPromptWithContext, if_neg (by simpa [List.length_eq_zero] using h)]
  · rw [List.length_drop]
    omega
  · exact ⟨msgs.take (msgs.length - CONTEXT_MESSAGE_LIMIT),
      (List.take_append_drop _ msgs).symm⟩
  · cases hm : m.role <;> simp [renderContextLine, hm]
  · rw [sendMessage]
    rw [if_neg (by simp [htrim, hopen])]
    simp [buildPromptWithContext, hm]

/-- Witness for C3 at one prior turn and at zero prior turns. -/
theorem prompt_context_window_witness :
    buildPromptWithContext [] "hello" = "hello" ∧
    buildPromptWithContext [{ role := .user, content := "hi", progress := none }] "next" =
      "Previous conversation:\n\n" ++
        String.intercalate "\n\n"
          (([({ role := .user, content := "hi", progress := none } : ChatMessage)].drop
              (([({ role := .user, content := "hi", progress := none } : ChatMessage)]).length -
                CONTEXT_MESSAGE_LIMIT)).map renderContextLine) ++
        "\n\nUser: " ++ "next" ∧
    (sendMessage true "hello" ⟨[], false⟩).outbound = ["hello"] := by
  refine ⟨prompt_context_window.1 "hello", ?_, ?_⟩
  · exact prompt_context_window.2.1
      [{ role := .user, content := "hi", progress := none }] "next" (by decide)
  · exact prompt_context_window.2.2.2.2.2 true "hello" ⟨[], false⟩ rfl rfl (by decide)

/-- Specialisation of the `{error}` branch to the empty placeholder turn:
`"" ++ "" ++ "Error: " ++ e` collapses to `"Error: " ++ e`. -/
theorem stepChat_error_on_placeholder (s : ChatState) (e : String)
    (init : List ChatMessage)
    (hms : s.messages = init ++ [{ role := .assistant, content := "", progress := none }]) :
    (stepChat s (.error e)).messages = init ++
      [{ role := .assistant, content := "Error: " ++ e, progress := none }] := by
  have hlast : s.messages.getLast? =
      some { role := .assistant, content := "", progress := none } := by rw [hms]; simp
  have hdrop : s.messages.dropLast = init := by rw [hms]; simp
  rw [stepChat]
  simp only [hlast, hdrop]
  simp

/-- C4: an `{error}` frame appends `"Error: " + message` to the trailing
assistant turn (with a blank-line separator exactly when that turn already
has content, and clearing its progress label), creates a new assistant
turn holding exactly `"Error: " + message` when the trailing turn is not
an assistant turn or the list is empty, and always ends streaming; on an
empty assistant placeholder the content becomes exactly the error text. -/
theorem error_frame_appends_to_assistant :
    ∀ (s : ChatState) (e : String),
    (stepChat s (.error e)).streaming = false ∧
    (∀ (init : List ChatMessage) (last : ChatMessage),
      s.messages = init ++ [last] → last.role = .assistant →
      (stepChat s (.error e)).messages = init ++
        [{ last with
            content := last.content ++
              (if last.content = "" then "" else "\n\n") ++ "Error: " ++ e,
            progress := none }]) ∧
    (∀ (init : List ChatMessage) (last : ChatMessage),
      s.messages = init ++ [last] → last.role ≠ .assistant →
      (stepChat s (.error e)).messages =
        s.messages ++ [{ role := .assistant, content := "Error: " ++ e, progress := none }]) ∧
    (s.messages = [] →
      (stepChat s (.error e)).messages =
        [{ role := .assistant, content := "Error: " ++ e, progress := none }]) ∧
    (∀ init : List ChatMessage,
      s.messages = init ++ [{ role := .assistant, content := "", progress := none }] →
      (stepChat s (.error e)).messages = init ++
        [{ role := .assistant, content := "Error: " ++ e, progress := none }]) := by
  intro s e
  refine ⟨?_, fun init last hms hrole => ?_, fun init last hms hrole => ?_,
    fun hms => ?_, fun init hms => ?_⟩
  · rw [stepChat]
  · have hlast : s.messages.getLast? = some last := by rw [hms]; simp
    have hdrop : s.messages.dropLast = init := by rw [hms]; simp
    rw [stepChat]
    simp only [hlast, hdrop, hrole, if_pos]
  · have hlast : s.messages.getLast? = some last := by rw [hms]; simp
    rw [stepChat]
    simp only [hlast]
    rw [if_neg hrole]
  · rw [stepChat]
    simp only [hms]
    simp
  · exact stepChat_error_on_placeholder s e init hms

/-- Witness for C4: `{"error":"timeout"}` on an empty assistant placeholder
makes its content exactly `"Error: timeout"` and ends streaming. -/
theorem error_frame_appends_to_assistant_witness :
    (stepChat ⟨[{ role := .user, content := "hello", progress := none },
                { role := .assistant, content := "", progress := none }], true⟩
        (.error "timeout")).messages =
      [{ role := .user, content := "hello", progress := none },
       { role := .assistant, content := "Error: timeout", progress := none }] ∧
    (stepChat ⟨[{ role := .user, content := "hello", progress := none },
                { role := .assistant, content := "", progress := none }], true⟩
        (.error "timeout")).streaming = false := by
  have h := error_frame_appends_to_assistant
    ⟨[{ role := .user, content := "hello", progress := none },
      { role := .assistant, content := "", progress := none }], true⟩ "timeout"
  exact ⟨h.2.2.2.2 [{ role := .user, content := "hello", progress := none }] rfl, h.1⟩

/-- Counterexample to C5 as stated: with a progress label set on the
trailing assistant turn, a later `{text: ""}` frame does not clear it —
`appendToAssistant` returns immediately on empty text (`if (!text) return`),
so the state is unchanged and the label survives. -/
theorem empty_text_does_not_clear_progress :
    stepChat
        ⟨[{ role := .assistant, content := "Hi", progress := some "Thinking..." }], true⟩
        (.text "") =
      ⟨[{ role := .assistant, content := "Hi", progress := some "Thinking..." }], true⟩ := by
  decide

/-- C5 (amended): a `{progress}` frame never changes any turn's role or
content and never changes the streaming flag; it is dropped outright when
the trailing turn is missing or not an assistant turn. A later non-empty
`{text}` frame clears a previously set progress label on the trailing
assistant turn, and a later `{done: true}` frame clears a previously set
non-empty progress label. -/
theorem progress_frame_effects :
    ∀ (s : ChatState) (p : String),
    ((stepChat s (.progress p)).messages.map ChatMessage.content =
      s.messages.map ChatMessage.content) ∧
    ((stepChat s (.progress p)).messages.map ChatMessage.role =
      s.messages.map ChatMessage.role) ∧
    ((stepChat s (.progress p)).streaming = s.streaming) ∧
    (∀ last : ChatMessage, s.messages.getLast? = some last →
      ¬last.role = .assistant → stepChat s (.progress p) = s) ∧
    (s.messages.getLast? = none → stepChat s (.progress p) = s) ∧
    (∀ (init : List ChatMessage) (last : ChatMessage) (t : String),
      s.messages = init ++ [last] → last.role = .assistant → t ≠ "" →
      (stepChat s (.text t)).messages =
        init ++ [{ last with content := last.content ++ t, progress := none }]) ∧
    (∀ (init : List ChatMessage) (last : ChatMessage) (q : String),
      s.messages = init ++ [last] → last.role = .assistant → last.progress = some q →
      q ≠ "" →
      (stepChat s .done).messages = init ++ [{ last with progress := none }] ∧
      (stepChat s .done).streaming = false) := by
  intro s p
  have hprog : ∀ (hl : Option ChatMessage), s.messages.getLast? = hl →
      (stepChat s (.progress p)).messages.map ChatMessage.content =
        s.messages.map ChatMessage.content ∧
      (stepChat s (.progress p)).messages.map ChatMessage.role =
        s.messages.map ChatMessage.role ∧
      (stepChat s (.progress p)).streaming = s.streaming := by
    intro hl hleq
    cases hl with
    | none =>
      rw [stepChat]
      simp only [hleq]
      refine ⟨?_, ?_, ?_⟩ <;> first | rfl | trivial
    | some last =>
      by_cases hr : last.role = .assistant
      · have hms := List.dropLast_append_getLast? last hleq
        rw [stepChat]
        simp only [hleq, hr, if_pos]
        refine ⟨?_, ?_, ?_⟩
        · conv_rhs => rw [← hms]
          simp
        · conv_rhs => rw [← hms]
          simp [hr]
        · trivial
      · rw [stepChat]
        simp only [hleq]
        rw [if_neg hr]
        refine ⟨?_, ?_, ?_⟩ <;> first | rfl | trivial
  have hmain := hprog s.messages.getLast? rfl
  refine ⟨hmain.1, hmain.2.1, hmain.2.2, fun last hleq hr => ?_, fun hleq => ?_,
    fun init last t hms hr ht => ?_, fun init last q hms hr hq hqne => ?_⟩
  · rw [stepChat]
    simp only [hleq]
    rw [if_neg hr]
  · rw [stepChat]
    simp only [hleq]
  · have hlast : s.messages.getLast? = some last := by rw [hms]; simp
    have hdrop : s.messages.dropLast = init := by rw [hms]; simp
    rw [stepChat]
    simp only [appendToAssistant, hlast, hdrop, hr, if_pos]
    rw [if_neg ht]
  · have hlast : s.messages.getLast? = some last := by rw [hms]; simp
    have hdrop : s.messages.dropLast = init := by rw [hms]; simp
    have htruthy : progressTruthy last.progress = true := by
      simp [progressTruthy, hq, hqne]
    rw [stepChat]
    simp only [hlast, hdrop]
    rw [if_pos ⟨hr, htruthy⟩]
    refine ⟨?_, ?_⟩ <;> first | rfl | trivial

/-- Witness for the amended C5: a non-empty `{text}` and a `{done}` each
clear a previously set progress label at a concrete state. -/
theorem progress_frame_effects_witness :
    (stepChat ⟨[{ role := .assistant, content := "", progress := some "Thinking..." }], true⟩
        (.text "Hi")).messages =
      [{ role := .assistant, content := "" ++ "Hi", progress := none }] ∧
    (stepChat ⟨[{ role := .assistant, content := "Hi", progress := some "Thinking..." }], true⟩
        .done).messages =
      [{ role := .assistant, content := "Hi", progress := none }] ∧
    (stepChat ⟨[{ role := .assistant, content := "Hi", progress := some "Thinking..." }], true⟩
        .done).streaming = false := by
  refine ⟨?_, ?_, ?_⟩
  · exact (progress_frame_effects
      ⟨[{ role := .assistant, content := "", progress := some "Thinking..." }], true⟩
      "").2.2.2.2.2.1 []
      { role := .assistant, content := "", progress := some "Thinking..." } "Hi"
      rfl rfl (by decide)
  · exact ((progress_frame_effects
      ⟨[{ role := .assistant, content := "Hi", progress := some "Thinking..." }], true⟩
      "").2.2.2.2.2.2 []
      { role := .assistant, content := "Hi", progress := some "Thinking..." } "Thinking..."
      rfl rfl rfl (by decide)).1
  · exact ((progress_frame_effects
      ⟨[{ role := .assistant, content := "Hi", progress := some "Thinking..." }], true⟩
      "").2.2.2.2.2.2 []
      { role := .assistant, content := "Hi", progress := some "Thinking..." } "Thinking..."
      rfl rfl rfl (by decide)).2

/-- C6: `sendMessage` is a no-op (messages, outbound traffic and streaming
flag all unchanged/empty) when the trimmed input is empty or the channel
is not open; otherwise it appends the user turn with the trimmed text
immediately followed by an empty assistant turn, marks streaming, and
emits exactly one outbound payload. -/
theorem send_message_noop_or_appends :
    ∀ (wsOpen : Bool) (input : String) (s : ChatState),
    (jsTrim input = "" ∨ wsOpen = false →
      sendMessage wsOpen input s =
        { messages := s.messages, outbound := [], streaming := s.streaming }) ∧
    (jsTrim input ≠ "" → wsOpen = true →
      sendMessage wsOpen input s =
        { messages := s.messages ++
            [{ role := .user, content := jsTrim input, progress := none },
             { role := .assistant, content := "", progress := none }],
          outbound := [buildPromptWithContext s.messages (jsTrim input)],
          streaming := true } ∧
      (sendMessage wsOpen input s).outbound.length = 1) := by
  intro wsOpen input s
  constructor
  · intro h
    rcases h with h | h
    · simp [sendMessage, h]
    · simp [sendMessage, h]
  · intro hne hopen
    constructor
    · simp [sendMessage, hne, hopen]
    · simp [sendMessage, hne, hopen]

/-- Witness for C6: a closed channel and a whitespace-only input are
no-ops; an open channel with `"hello"` appends the two turns and emits
one payload. -/
theorem send_message_noop_or_appends_witness :
    sendMessage false "hello" ⟨[], false⟩ =
      { messages := [], outbound := [], streaming := false } ∧
    sendMessage true "  " ⟨[], false⟩ =
      { messages := [], outbound := [], streaming := false } ∧
    sendMessage true "hello" ⟨[], false⟩ =
      { messages :=
          [{ role := .user, content := jsTrim "hello", progress := none },
           { role := .assistant, content := "", progress := none }],
        outbound := [buildPromptWithContext [] (jsTrim "hello")],
        streaming := true } := by
  refine ⟨?_, ?_, ?_⟩
  · exact (send_message_noop_or_appends false "hello" ⟨[], false⟩).1 (Or.inr rfl)
  · exact (send_message_noop_or_appends true "  " ⟨[], false⟩).1 (Or.inl (by decide))
  · have h := ((send_message_noop_or_appends true "hello" ⟨[], false⟩).2 (by decide) rfl).1
    simpa using h

/-- Example session record used by the concrete registry states below. -/
def exSession (i : String) : TerminalSession :=
  { id := i, name := "Terminal", group := "default", tool := .generic,
    status := .running, command := "generic", cwd := "--", startedAt := 0,
    createdAt := none }

/-- Concrete registry: three sessions, session `b` active, session `c`
maximized. -/
def exRegistry : RegistryState :=
  { groups := [{ id := "default", label := "CLI", color := "#64748b",
                 sessions := [exSession "a", exSession "b", exSession "c"] }],
    activeTabId := some "b",
    maximizedSession := some "c" }

/-- Concrete registry: three sessions, session `a` both active and
maximized. -/
def exRegistry2 : RegistryState :=
  { groups := [{ id := "default", label := "CLI", color := "#64748b",
                 sessions := [exSession "a", exSession "b", exSession "c"] }],
    activeTabId := some "a",
    maximizedSession := some "a" }

/-- Counterexample to C7 as stated: closing the maximized session `c`
while session `b` is the active tab clears the maximized selection and
removes `c`, but the active selection stays `b` — it is not re-pointed at
the first remaining session `a` as the claim requires. -/
theorem closing_maximized_keeps_active_unchanged :
    (closeSession "c" exRegistry).maximizedSession = none ∧
    (allSessions (closeSession "c" exRegistry)).map TerminalSession.id = ["a", "b"] ∧
    (closeSession "c" exRegistry).activeTabId = some "b" ∧
    ¬(closeSession "c" exRegistry).activeTabId = some "a" := by
  decide

/-- Filtering a session id out of every group commutes with flattening. -/
theorem allSessions_closeSession (s : RegistryState) (sessionId : String) :
    allSessions (closeSession sessionId s) =
      (allSessions s).filter fun x => x.id ≠ sessionId := by
  rw [closeSession, allSessions, allSessions]
  induction s.groups with
  | nil => rfl
  | cons g gs ih =>
    simp only [List.map_cons, List.flatMap_cons, List.filter_append, ih]

/-- C7 (amended): closing a session removes it from the session set and
clears the maximized selection exactly when that session was maximized;
when the closed session was the active tab the first remaining session
becomes active (none when no session remains); when it was not the active
tab — even if it was the maximized one — the active selection is
unchanged. -/
theorem close_session_effects :
    ∀ (s : RegistryState) (sessionId : String),
    (allSessions (closeSession sessionId s) =
      (allSessions s).filter fun x => x.id ≠ sessionId) ∧
    ((closeSession sessionId s).maximizedSession =
      if s.maximizedSession = some sessionId then none else s.maximizedSession) ∧
    (s.activeTabId = some sessionId →
      (closeSession sessionId s).activeTabId =
        (((allSessions s).filter fun x => x.id ≠ sessionId).head?).map TerminalSession.id) ∧
    (s.activeTabId ≠ some sessionId →
      (closeSession sessionId s).activeTabId = s.activeTabId) := by
  intro s sessionId
  refine ⟨allSessions_closeSession s sessionId, rfl, fun h => ?_, fun h => ?_⟩
  · rw [closeSession]
    simp [h]
  · rw [closeSession]
    simp [h]

/-- Witness for the amended C7: closing the active-and-maximized session
`a` of `exRegistry2` falls back to the first remaining session `b` and
clears the maximized selection. -/
theorem close_session_effects_witness :
    (closeSession "a" exRegistry2).activeTabId =
      (((allSessions exRegistry2).filter fun x => x.id ≠ "a").head?).map
        TerminalSession.id ∧
    (closeSession "a" exRegistry2).activeTabId = some "b" ∧
    (closeSession "a" exRegistry2).maximizedSession = none := by
  have h := close_session_effects exRegistry2 "a"
  refine ⟨h.2.2.1 rfl, ?_, ?_⟩
  · rw [h.2.2.1 rfl]
    decide
  · rw [h.2.1]
    decide

/-- C9: `setSessionState` rewrites every group's sessions through the
per-session update and touches nothing else; the update changes only the
`tool` and `status` of the session with the matching id, preserving its
identity, name, group, command, cwd and timestamps, and leaves every other
session entirely unchanged. -/
theorem session_state_changed_updates_only_tool_status :
    ∀ (s : RegistryState) (sessionId : String) (tool : ToolType)
      (status : TerminalStatus),
    ((setSessionState sessionId tool status s).activeTabId = s.activeTabId) ∧
    ((setSessionState sessionId tool status s).maximizedSession = s.maximizedSession) ∧
    ((setSessionState sessionId tool status s).groups =
      s.groups.map fun g =>
        { g with sessions := g.sessions.map (updateSessionState sessionId tool status) }) ∧
    (∀ sess : TerminalSession,
      (updateSessionState sessionId tool status sess).id = sess.id ∧
      (updateSessionState sessionId tool status sess).name = sess.name ∧
      (updateSessionState sessionId tool status sess).group = sess.group ∧
      (updateSessionState sessionId tool status sess).command = sess.command ∧
      (updateSessionState sessionId tool status sess).cwd = sess.cwd ∧
      (updateSessionState sessionId tool status sess).startedAt = sess.startedAt ∧
      (updateSessionState sessionId tool status sess).createdAt = sess.createdAt ∧
      (sess.id = sessionId →
        (updateSessionState sessionId tool status sess).tool = tool ∧
        (updateSessionState sessionId tool status sess).status = status) ∧
      (sess.id ≠ sessionId → updateSessionState sessionId tool status sess = sess)) := by
  intro s sessionId tool status
  refine ⟨rfl, rfl, rfl, fun sess => ?_⟩
  by_cases h : sess.id = sessionId
  · simp [updateSessionState, h]
  · simp [updateSessionState, h]

/-- Witness for C9: updating session `a` of `exRegistry` to
`(claude, stopped)` changes only those two fields of `a` and leaves `b`
untouched. -/
theorem session_state_changed_witness :
    (updateSessionState "a" .claude .stopped (exSession "a")).tool = .claude ∧
    (updateSessionState "a" .claude .stopped (exSession "a")).status = .stopped ∧
    (updateSessionState "a" .claude .stopped (exSession "a")).id = (exSession "a").id ∧
    (updateSessionState "a" .claude .stopped (exSession "a")).cwd = (exSession "a").cwd ∧
    updateSessionState "a" .claude .stopped (exSession "b") = exSession "b" ∧
    (setSessionState "a" .claude .stopped exRegistry).activeTabId =
      exRegistry.activeTabId := by
  have h := session_state_changed_updates_only_tool_status exRegistry "a" .claude .stopped
  have ha := h.2.2.2 (exSession "a")
  have hb := h.2.2.2 (exSession "b")
  exact ⟨(ha.2.2.2.2.2.2.2.1 rfl).1, (ha.2.2.2.2.2.2.2.1 rfl).2, ha.1, ha.2.2.2.2.1,
    hb.2.2.2.2.2.2.2.2 (by decide), h.1⟩

end VibeAround
